import Mathlib

/-!
Verification of the book-review backend (Express + MySQL).

The definitions below are a shallow embedding of the route handlers in
`src/backend/routes/*.js` and `src/unnamed/part_002` (comments/books routes),
the auth middleware in `src/backend/middleware/validate.js` (second document:
`middleware/auth.js`), and — where the repository's `schema.sql` is absent —
the database triggers described by the specification.  SQL tables are lists
of row structures; each handler is a pure function from inputs and a database
state to a result and a new state.  Result constructors correspond one-to-one
to the `return res.status(...).json(...)` sites of the handlers.
-/

namespace BookReview

/-- Moderation status of a review (`reviews.status`). -/
inductive RStatus
  | pending
  | approved
  | rejected
  | hidden
deriving DecidableEq, Repr

/-- Moderation status of a comment (`review_comments.status`). -/
inductive CStatus
  | approved
  | pending
  | rejected
deriving DecidableEq, Repr

/-- Account status of a user (`users.status`). -/
inductive UStatus
  | active
  | banned
deriving DecidableEq, Repr

/-- Role of a user (`users.role`). -/
inductive Role
  | user
  | admin
deriving DecidableEq, Repr

/-- Per-field privacy map stored in `users.privacy_settings`
    (`{avatar, signature, stats, history}`). -/
structure Privacy where
  avatar : Bool
  signature : Bool
  stats : Bool
  history : Bool
deriving DecidableEq, Repr

/-- A row of the `users` table (the columns the routes touch). -/
structure UserRow where
  id : Nat
  email : String
  username : String
  role : Role
  status : UStatus
  avatar_url : Option String
  bio : Option String
  signature : Option String
  /-- `privacy_settings` column: `none` models SQL NULL / unparsable JSON
      (the handler falls back to the all-`true` default). -/
  privacy_settings : Option Privacy
  total_reviews : Nat
  total_likes_received : Nat
deriving DecidableEq, Repr

/-- A row of the `books` table. -/
structure BookRow where
  id : Nat
  title : String
  author : String
  total_reviews : Nat
deriving DecidableEq, Repr

/-- A row of the `reviews` table. -/
structure Review where
  id : Nat
  user_id : Nat
  book_id : Nat
  title : String
  content : String
  rating : Nat
  status : RStatus
  views : Nat
  likes_count : Nat
  comments_count : Nat
deriving DecidableEq, Repr

/-- A row of the `review_likes` join table. -/
structure LikeRow where
  user_id : Nat
  review_id : Nat
deriving DecidableEq, Repr

/-- A row of the `user_favorites` join table. -/
structure FavRow where
  user_id : Nat
  review_id : Nat
deriving DecidableEq, Repr

/-- A row of the `review_comments` table. -/
structure CommentRow where
  id : Nat
  review_id : Nat
  user_id : Nat
  parent_id : Option Nat
  content : String
  status : CStatus
deriving DecidableEq, Repr

/-- A row of the `system_logs` table (the columns the view tracker touches).
    `created_at` is a timestamp in milliseconds. -/
structure LogRow where
  user_id : Option Nat
  action : String
  target_id : Nat
  ip_address : String
  user_agent : String
  created_at : Nat
deriving DecidableEq, Repr

/-- The database state.  `nextReviewId` / `nextCommentId` model the
    AUTO_INCREMENT counters (`result.insertId`). -/
structure DB where
  users : List UserRow
  books : List BookRow
  reviews : List Review
  review_likes : List LikeRow
  user_favorites : List FavRow
  review_comments : List CommentRow
  system_logs : List LogRow
  nextReviewId : Nat
  nextCommentId : Nat
deriving DecidableEq, Repr

/-! ### Counter maintenance (spec-modelled triggers)

The like route inserts/deletes `review_likes` rows and relies on database
triggers to maintain the counters (`likes.js` line 62: "触发器会自动更新计数" —
the trigger updates the counts automatically).  The trigger definitions live
in `database/schema.sql`, which is not part of the provided source tree. -/

/-- Modelled from the spec: the counter-maintenance trigger fired on a
`review_likes` INSERT; `schema.sql` (which defines it) is missing from the
source tree.  Spec §4.2: "On Like insert: `reviews.likes_count += 1`;
`users.total_likes_received += 1` for the review's author." -/
def likeInsertTrigger (reviewId : Nat) (db : DB) : DB :=
  let author := (db.reviews.find? (fun r => r.id == reviewId)).map (·.user_id)
  { db with
    reviews := db.reviews.map (fun r =>
      if r.id == reviewId then { r with likes_count := r.likes_count + 1 } else r)
    users := db.users.map (fun u =>
      if author == some u.id then
        { u with total_likes_received := u.total_likes_received + 1 } else u) }

/-- Modelled from the spec: the counter-maintenance trigger fired on a
`review_likes` DELETE; `schema.sql` (which defines it) is missing from the
source tree.  Spec §4.2: "On Like delete: symmetric decrement."  A MySQL
row-level trigger fires once per deleted row, so the model decrements by the
number of deleted rows for the review. -/
def likeDeleteTrigger (reviewId removed : Nat) (db : DB) : DB :=
  let author := (db.reviews.find? (fun r => r.id == reviewId)).map (·.user_id)
  { db with
    reviews := db.reviews.map (fun r =>
      if r.id == reviewId then { r with likes_count := r.likes_count - removed } else r)
    users := db.users.map (fun u =>
      if author == some u.id then
        { u with total_likes_received := u.total_likes_received - removed } else u) }

/-! ### Like service (`src/backend/routes/likes.js`) -/

/-- Result of `POST /api/likes/reviews/:reviewId` (like handler,
    `likes.js` lines 23-92).  One constructor per `return` site. -/
inductive LikeResult
  /-- 404 — review missing or not approved. -/
  | notFound
  /-- 409 — a like row already exists for (user, review). -/
  | alreadyLiked
  /-- 400 — the actor owns the review ("不能给自己的书评点赞"). -/
  | selfLikeForbidden
  /-- 201 — like row inserted; payload carries the updated `likes_count`. -/
  | created (likes_count : Nat)
deriving DecidableEq, Repr

/-- HTTP status of a like-handler result. -/
def LikeResult.httpStatus : LikeResult → Nat
  | .notFound => 404
  | .alreadyLiked => 409
  | .selfLikeForbidden => 400
  | .created _ => 201

/-- `POST /api/likes/reviews/:reviewId` (`likes.js` lines 23-92).
Checks, in source order: review exists and approved (404), already liked
(409), self-like (400); then inserts the like row and the trigger updates
the counters. -/
def likeReview (userId reviewId : Nat) (db : DB) : LikeResult × DB :=
  match db.reviews.find? (fun r => r.id == reviewId && decide (r.status = .approved)) with
  | none => (.notFound, db)
  | some review =>
    let existing := db.review_likes.filter
      (fun l => l.user_id == userId && l.review_id == reviewId)
    if existing.length > 0 then (.alreadyLiked, db)
    else if review.user_id == userId then (.selfLikeForbidden, db)
    else
      let db1 := { db with review_likes := db.review_likes ++ [⟨userId, reviewId⟩] }
      let db2 := likeInsertTrigger reviewId db1
      let count := ((db2.reviews.find? (fun r => r.id == reviewId)).map
        (·.likes_count)).getD 0
      (.created count, db2)

/-- Result of `DELETE /api/likes/reviews/:reviewId` (unlike handler,
    `likes.js` lines 99-147). -/
inductive UnlikeResult
  /-- 404 — no like row exists for (user, review). -/
  | notLiked
  /-- 200 — row deleted; payload carries the updated `likes_count`. -/
  | ok (likes_count : Nat)
deriving DecidableEq, Repr

/-- HTTP status of an unlike-handler result. -/
def UnlikeResult.httpStatus : UnlikeResult → Nat
  | .notLiked => 404
  | .ok _ => 200

/-- `DELETE /api/likes/reviews/:reviewId` (`likes.js` lines 99-147).
If no like row exists, 404; otherwise deletes every (user, review) row and
the trigger decrements the counters once per deleted row. -/
def unlikeReview (userId reviewId : Nat) (db : DB) : UnlikeResult × DB :=
  let existing := db.review_likes.filter
    (fun l => l.user_id == userId && l.review_id == reviewId)
  if existing.length == 0 then (.notLiked, db)
  else
    let remaining := db.review_likes.filter
      (fun l => !(l.user_id == userId && l.review_id == reviewId))
    let db1 := { db with review_likes := remaining }
    let db2 := likeDeleteTrigger reviewId existing.length db1
    let count := ((db2.reviews.find? (fun r => r.id == reviewId)).map
      (·.likes_count)).getD 0
    (.ok count, db2)

/-- Denormalized-counter invariant of spec §4.2 / §8: every review's
`likes_count` equals the number of `review_likes` rows for it. -/
def likesConsistent (db : DB) : Bool :=
  db.reviews.all (fun r =>
    r.likes_count == db.review_likes.countP (fun l => l.review_id == r.id))

/-- A like or unlike operation, for sequencing. -/
inductive LikeOp
  | like (userId reviewId : Nat)
  | unlike (userId reviewId : Nat)
deriving DecidableEq, Repr

/-- Run a sequence of like/unlike operations, keeping only the state. -/
def runLikeOps (ops : List LikeOp) (db : DB) : DB :=
  ops.foldl (fun s op =>
    match op with
    | .like u r => (likeReview u r s).2
    | .unlike u r => (unlikeReview u r s).2) db

/-! ### Auth middleware (`middleware/auth.js`, second document of
`src/backend/middleware/validate.js`) -/

/-- The object `authenticateToken` / `optionalAuth` store in `req.user`
(lines 362-368 / 444-450): note the id is stored under `userId`; the object
has no `id` property. -/
structure AuthUser where
  userId : Nat
  email : String
  username : String
  role : Role
  avatar_url : Option String
deriving DecidableEq, Repr

/-- Input to the middleware, abstracting the external JWT verifier:
`none` = no `Authorization` header / no token; `some none` = token present
but verification fails (expired/malformed/bad signature); `some (some uid)`
= verified token whose payload carries `userId = uid`. -/
abbrev TokenInput := Option (Option Nat)

/-- Outcome of `authenticateToken` (`middleware/auth.js` lines 299-383).
One constructor per `return` site plus success. -/
inductive AuthOutcome
  /-- 401 `NO_TOKEN`. -/
  | noToken
  /-- 403 `INVALID_TOKEN` / `TOKEN_EXPIRED` / `MALFORMED_TOKEN`. -/
  | invalidToken
  /-- 403 `USER_NOT_FOUND`. -/
  | userNotFound
  /-- 403 `ACCOUNT_DISABLED`. -/
  | accountDisabled
  /-- authenticated; `req.user` is set and the handler runs. -/
  | ok (user : AuthUser)
deriving DecidableEq, Repr

/-- `authenticateToken` (`middleware/auth.js` lines 299-383): verifies the
token, re-reads the user row, and rejects non-`active` accounts with 403
`ACCOUNT_DISABLED`. -/
def authenticateToken (tok : TokenInput) (db : DB) : AuthOutcome :=
  match tok with
  | none => .noToken
  | some none => .invalidToken
  | some (some uid) =>
    match db.users.find? (fun u => u.id == uid) with
    | none => .userNotFound
    | some u =>
      if u.status ≠ .active then .accountDisabled
      else .ok ⟨u.id, u.email, u.username, u.role, u.avatar_url⟩

/-- An endpoint guarded by `authenticateToken`: on any middleware failure
the request ends with the middleware's error response (status, code) and
the handler never runs, so the state is untouched. -/
def guardedEndpoint {ρ : Type} (errResp : Nat → String → ρ)
    (handler : AuthUser → DB → ρ × DB) (tok : TokenInput) (db : DB) : ρ × DB :=
  match authenticateToken tok db with
  | .noToken => (errResp 401 "NO_TOKEN", db)
  | .invalidToken => (errResp 403 "INVALID_TOKEN", db)
  | .userNotFound => (errResp 403 "USER_NOT_FOUND", db)
  | .accountDisabled => (errResp 403 "ACCOUNT_DISABLED", db)
  | .ok u => handler u db

/-- `optionalAuth` (`middleware/auth.js` lines 417-461): a missing or
invalid token, a missing user row, or a non-`active` user (the SQL filters
`status = "active"`) all downgrade to `req.user = null`; the handler always
runs. -/
def optionalAuth (tok : TokenInput) (db : DB) : Option AuthUser :=
  match tok with
  | none => none
  | some none => none
  | some (some uid) =>
    match db.users.find? (fun u => u.id == uid && decide (u.status = .active)) with
    | none => none
    | some u => some ⟨u.id, u.email, u.username, u.role, u.avatar_url⟩

/-! ### Favorite service (`src/backend/routes/profile.js`, second document:
the favorites routes) -/

/-- Result of `POST /api/favorites/reviews/:reviewId` (favorites routes,
lines 857-920 of `profile.js`). -/
inductive FavResult
  /-- 404 — review missing or not approved. -/
  | notFound
  /-- 409 — already favorited. -/
  | alreadyFavorited
  /-- 201 — favorite row inserted; payload echoes the review title. -/
  | created (title : String)
deriving DecidableEq, Repr

/-- HTTP status of a favorite-handler result. -/
def FavResult.httpStatus : FavResult → Nat
  | .notFound => 404
  | .alreadyFavorited => 409
  | .created _ => 201

/-- `POST /api/favorites/reviews/:reviewId` (lines 857-920).  Same shape as
the like handler but with no self-interaction check (source comment line
888: "可以收藏自己的书评（与点赞不同）" — one may favorite one's own review,
unlike liking). -/
def favoriteReview (userId reviewId : Nat) (db : DB) : FavResult × DB :=
  match db.reviews.find? (fun r => r.id == reviewId && decide (r.status = .approved)) with
  | none => (.notFound, db)
  | some _ =>
    let existing := db.user_favorites.filter
      (fun f => f.user_id == userId && f.review_id == reviewId)
    if existing.length > 0 then (.alreadyFavorited, db)
    else
      let db1 := { db with user_favorites := db.user_favorites ++ [⟨userId, reviewId⟩] }
      let title := ((db1.reviews.find? (fun r => r.id == reviewId)).map (·.title)).getD ""
      (.created title, db1)

/-! ### Express routing of the likes router (`likes.js` registration order) -/

/-- A segment of an Express route pattern: a literal or a `:param`. -/
inductive Seg
  | lit (s : String)
  | param (name : String)
deriving DecidableEq, Repr

/-- Express path matching: a literal segment matches itself, a `:param`
segment matches any one path segment. -/
def segsMatch : List Seg → List String → Bool
  | [], [] => true
  | .lit s :: ps, x :: xs => s == x && segsMatch ps xs
  | .param _ :: ps, _ :: xs => segsMatch ps xs
  | _, _ => false

/-- HTTP method. -/
inductive Method
  | get
  | post
  | put
  | delete
deriving DecidableEq, Repr

/-- The handlers registered on the likes router, tagged by their position in
`likes.js`. -/
inductive LikesHandler
  /-- `router.post('/reviews/:reviewId', authenticateToken, ...)` line 23. -/
  | likeHandler
  /-- `router.delete('/reviews/:reviewId', authenticateToken, ...)` line 99. -/
  | unlikeHandler
  /-- `router.get('/reviews/:reviewId', ...)` line 154. -/
  | statusHandler
  /-- `router.get('/user/:userId', ...)` line 218. -/
  | userHistoryHandler
  /-- `router.get('/my', authenticateToken, ...)` line 289. -/
  | myHistoryHandler
  /-- `router.post('/reviews/batch', ...)` line 350. -/
  | batchHandler
deriving DecidableEq, Repr

/-- The likes router's routes in registration (= source) order. -/
def likesRoutes : List (Method × List Seg × LikesHandler) :=
  [ (.post, [.lit "reviews", .param "reviewId"], .likeHandler),
    (.delete, [.lit "reviews", .param "reviewId"], .unlikeHandler),
    (.get, [.lit "reviews", .param "reviewId"], .statusHandler),
    (.get, [.lit "user", .param "userId"], .userHistoryHandler),
    (.get, [.lit "my"], .myHistoryHandler),
    (.post, [.lit "reviews", .lit "batch"], .batchHandler) ]

/-- Express dispatch: the first registered route whose method and pattern
match handles the request. -/
def dispatchLikes (m : Method) (path : List String) : Option LikesHandler :=
  (likesRoutes.find? (fun r => decide (r.1 = m) && segsMatch r.2.1 path)).map (·.2.2)

/-- Which likes routes are guarded by `authenticateToken` (from the
middleware argument at each registration site in `likes.js`). -/
def likesRouteRequiresAuth : LikesHandler → Bool
  | .likeHandler => true
  | .unlikeHandler => true
  | .myHistoryHandler => true
  | .statusHandler => false
  | .userHistoryHandler => false
  | .batchHandler => false

/-- One entry of the batch like-status response payload. -/
structure BatchEntry where
  review_id : Nat
  title : String
  likes_count : Nat
  is_liked : Bool
deriving DecidableEq, Repr

/-- Result of the batch like-status handler body (`likes.js` lines 350-419). -/
inductive BatchResult
  /-- 400 — the id list is missing/not an array/empty. -/
  | invalidList
  /-- 400 — more than 50 ids. -/
  | tooMany
  /-- 200 — per-id entries. -/
  | ok (entries : List BatchEntry)
deriving DecidableEq, Repr

/-- HTTP status of a batch-status result. -/
def BatchResult.httpStatus : BatchResult → Nat
  | .invalidList => 400
  | .tooMany => 400
  | .ok _ => 200

/-- The batch like-status handler body (`likes.js` lines 350-419).
`actor` is the decoded JWT user id; `none` models an anonymous caller or an
invalid token (the handler swallows verification errors and leaves
`userLikes` empty). -/
def batchLikeStatus (review_ids : List Nat) (actor : Option Nat) (db : DB) :
    BatchResult :=
  if review_ids.length == 0 then .invalidList
  else if review_ids.length > 50 then .tooMany
  else
    let reviews := db.reviews.filter (fun r => review_ids.contains r.id)
    let userLikes := match actor with
      | none => ([] : List LikeRow)
      | some uid => db.review_likes.filter
          (fun l => l.user_id == uid && review_ids.contains l.review_id)
    let likedReviewIds := userLikes.map (·.review_id)
    .ok (reviews.map (fun r =>
      ⟨r.id, r.title, r.likes_count, likedReviewIds.contains r.id⟩))

/-! ### Review creation / update / deletion (`src/backend/routes/reviews.js`) -/

/-- Modelled from the spec: trigger on review INSERT (defined in the missing
`schema.sql`).  Spec §4.2: `books.total_reviews += 1` and
`users.total_reviews += 1` for the author.  The floating-point
`average_rating` recomputation is not modelled (no claim references it). -/
def reviewInsertTrigger (bookId authorId : Nat) (db : DB) : DB :=
  { db with
    books := db.books.map (fun b =>
      if b.id == bookId then { b with total_reviews := b.total_reviews + 1 } else b)
    users := db.users.map (fun u =>
      if u.id == authorId then { u with total_reviews := u.total_reviews + 1 } else u) }

/-- Result of `POST /api/reviews` (`reviews.js` lines 25-99). -/
inductive CreateReviewResult
  /-- 400 — a required field is JS-falsy (`!book_id || !title || !content || !rating`). -/
  | missingFields
  /-- 400 — rating outside 1..5. -/
  | badRating
  /-- 404 — the book does not exist. -/
  | bookNotFound
  /-- 409 — the user already has a review for this book (no status filter). -/
  | duplicate
  /-- 201 — review inserted with status `'approved'`. -/
  | created (id : Nat)
deriving DecidableEq, Repr

/-- HTTP status of a create-review result. -/
def CreateReviewResult.httpStatus : CreateReviewResult → Nat
  | .missingFields => 400
  | .badRating => 400
  | .bookNotFound => 404
  | .duplicate => 409
  | .created _ => 201

/-- `POST /api/reviews` (`reviews.js` lines 25-99), the handler body after
`authenticateToken`.  The duplicate check (lines 55-66) is
`WHERE user_id = ? AND book_id = ?` with **no status filter**. -/
def createReview (userId book_id : Nat) (title content : String) (rating : Nat)
    (db : DB) : CreateReviewResult × DB :=
  if book_id == 0 || title == "" || content == "" || rating == 0 then
    (.missingFields, db)
  else if rating < 1 || rating > 5 then (.badRating, db)
  else
    match db.books.find? (fun b => b.id == book_id) with
    | none => (.bookNotFound, db)
    | some _ =>
      let existing := db.reviews.filter
        (fun r => r.user_id == userId && r.book_id == book_id)
      if existing.length > 0 then (.duplicate, db)
      else
        let rid := db.nextReviewId
        let row : Review := ⟨rid, userId, book_id, title, content, rating,
          .approved, 0, 0, 0⟩
        let db1 := { db with reviews := db.reviews ++ [row],
                             nextReviewId := rid + 1 }
        (.created rid, reviewInsertTrigger book_id userId db1)

/-- The PUT body of `PUT /api/reviews/:id`: each field is optional
(`undefined` = absent). -/
structure ReviewUpdate where
  title : Option String
  content : Option String
  rating : Option Nat
deriving DecidableEq, Repr

/-- Result of `PUT /api/reviews/:id` (`reviews.js` lines 380-469). -/
inductive UpdateReviewResult
  /-- 404 — review does not exist. -/
  | notFound
  /-- 403 — actor is neither the author nor an admin. -/
  | forbidden
  /-- 400 — rating outside 1..5. -/
  | badRating
  /-- 400 — no field to update. -/
  | noFields
  /-- 200 — review updated. -/
  | ok
deriving DecidableEq, Repr

/-- HTTP status of an update-review result. -/
def UpdateReviewResult.httpStatus : UpdateReviewResult → Nat
  | .notFound => 404
  | .forbidden => 403
  | .badRating => 400
  | .noFields => 400
  | .ok => 200

/-- `PUT /api/reviews/:id` (`reviews.js` lines 380-469), the handler body
after `authenticateToken`.  Permission check (lines 399-404): only the
author or an admin may modify. -/
def updateReview (userId : Nat) (role : Role) (reviewId : Nat)
    (body : ReviewUpdate) (db : DB) : UpdateReviewResult × DB :=
  match db.reviews.find? (fun r => r.id == reviewId) with
  | none => (.notFound, db)
  | some review =>
    if review.user_id ≠ userId ∧ role ≠ .admin then (.forbidden, db)
    else if body.rating.any (fun rat => rat < 1 || rat > 5) then (.badRating, db)
    else if body.title = none ∧ body.content = none ∧ body.rating = none then
      (.noFields, db)
    else
      (.ok, { db with reviews := db.reviews.map (fun r =>
        if r.id == reviewId then
          { r with title := body.title.getD r.title,
                   content := body.content.getD r.content,
                   rating := body.rating.getD r.rating }
        else r) })

/-- Result of `DELETE /api/reviews/:id` (`reviews.js` lines 476-517). -/
inductive DeleteReviewResult
  /-- 404 — review does not exist. -/
  | notFound
  /-- 403 — actor is neither the author nor an admin. -/
  | forbidden
  /-- 200 — soft-deleted. -/
  | ok
deriving DecidableEq, Repr

/-- `DELETE /api/reviews/:id` (`reviews.js` lines 476-517): a **soft**
delete — `UPDATE reviews SET status = "hidden"` (line 502); the row is not
removed. -/
def deleteReview (userId : Nat) (role : Role) (reviewId : Nat) (db : DB) :
    DeleteReviewResult × DB :=
  match db.reviews.find? (fun r => r.id == reviewId) with
  | none => (.notFound, db)
  | some review =>
    if review.user_id ≠ userId ∧ role ≠ .admin then (.forbidden, db)
    else
      (.ok, { db with reviews := db.reviews.map (fun r =>
        if r.id == reviewId then { r with status := .hidden } else r) })

/-! ### View tracker (`reviews.js` lines 293-373) -/

/-- Success payload of `POST /api/reviews/:id/view`. -/
structure ViewOk where
  views : Nat
  counted : Bool
deriving DecidableEq, Repr

/-- Result of `POST /api/reviews/:id/view`. -/
inductive ViewResult
  /-- 404 `REVIEW_NOT_FOUND`. -/
  | notFound
  /-- 200, with the current view count and whether this call counted. -/
  | ok (r : ViewOk)
deriving DecidableEq, Repr

/-- The dedup lookup of the view tracker (`reviews.js` lines 316-332): a
prior `'view_review'` log row for the same review within the trailing
30-minute window, keyed by `user_id` when an actor is resolved and by
`ip_address` otherwise. -/
def recentViewLogs (reviewId : Nat) (userId : Option Nat) (ipAddress : String)
    (windowStart : Nat) (db : DB) : List LogRow :=
  match userId with
  | some uid => db.system_logs.filter (fun l =>
      l.user_id == some uid && l.action == "view_review" &&
      l.target_id == reviewId && windowStart < l.created_at)
  | none => db.system_logs.filter (fun l =>
      l.ip_address == ipAddress && l.action == "view_review" &&
      l.target_id == reviewId && windowStart < l.created_at)

/-- Current `views` of a review as read back by the handler
(`SELECT views FROM reviews WHERE id = ?`, no status filter). -/
def viewsOf (reviewId : Nat) (db : DB) : Nat :=
  ((db.reviews.find? (fun r => r.id == reviewId)).map (·.views)).getD 0

/-- `POST /api/reviews/:id/view` (`reviews.js` lines 293-373).  `now` is
`Date.now()` in milliseconds; `userId` is `req.user ? req.user.userId :
null`. -/
def recordView (reviewId : Nat) (userId : Option Nat) (ipAddress userAgent : String)
    (now : Nat) (db : DB) : ViewResult × DB :=
  match db.reviews.find? (fun r => r.id == reviewId && decide (r.status = .approved)) with
  | none => (.notFound, db)
  | some _ =>
    let timeWindow := 30 * 60 * 1000
    let windowStart := now - timeWindow
    let shouldCount := (recentViewLogs reviewId userId ipAddress windowStart db).length == 0
    if shouldCount then
      let newReviews := db.reviews.map (fun r =>
        if r.id == reviewId then { r with views := r.views + 1 } else r)
      let db1 := { db with reviews := newReviews }
      let db2 := { db1 with system_logs := db1.system_logs ++
        [⟨userId, "view_review", reviewId, ipAddress, userAgent, now⟩] }
      (.ok ⟨viewsOf reviewId db2, true⟩, db2)
    else
      (.ok ⟨viewsOf reviewId db, false⟩, db)

/-! ### Comment service (`src/unnamed/part_002`, the comments routes) -/

/-- JS `String.prototype.trim()` as used by the comment handlers: strip
leading and trailing whitespace.  (Executable model over the character
list; the JS whitespace set is restricted to the ASCII whitespace
characters, which is all the claims exercise.) -/
def jsTrim (s : String) : String :=
  let ws : Char → Bool := fun c => c == ' ' || c == '\t' || c == '\n' || c == '\r'
  ⟨((s.data.dropWhile ws).reverse.dropWhile ws).reverse⟩

/-- Modelled from the spec: the default of `review_comments.status` on
INSERT, declared in the missing `schema.sql`.  Spec §4.5:
"`created(approved)` is the default on insert in the current design". -/
def defaultCommentStatus : CStatus := .approved

/-- Modelled from the spec: trigger on comment INSERT (missing
`schema.sql`).  Spec §4.2: "On Comment insert/delete:
`reviews.comments_count` increment/decrement.  Replies count identically to
top-level comments." -/
def commentInsertTrigger (reviewId : Nat) (db : DB) : DB :=
  { db with reviews := db.reviews.map (fun r =>
      if r.id == reviewId then { r with comments_count := r.comments_count + 1 } else r) }

/-- Modelled from the spec: trigger on comment DELETE (missing
`schema.sql`), symmetric decrement. -/
def commentDeleteTrigger (reviewId : Nat) (db : DB) : DB :=
  { db with reviews := db.reviews.map (fun r =>
      if r.id == reviewId then { r with comments_count := r.comments_count - 1 } else r) }

/-- Result of `POST /api/comments/:id/reply` (`part_002` lines 609-685). -/
inductive ReplyResult
  /-- 400 — empty content. -/
  | emptyContent
  /-- 400 — content longer than 1000. -/
  | tooLong
  /-- 404 — parent comment missing / not approved (or its review row absent:
      the lookup JOINs `reviews`). -/
  | parentNotFound
  /-- 403 — the parent's review is not approved. -/
  | reviewNotApproved
  /-- 201 — reply inserted. -/
  | created (id : Nat)
deriving DecidableEq, Repr

/-- `POST /api/comments/:id/reply` (`part_002` lines 609-685).  The parent
lookup (lines 631-637) requires only `rc.id = ? AND rc.status = 'approved'`
joined to its review; nothing checks `parent_id IS NULL` on the parent.
The reply inherits the parent's `review_id` and sets `parent_id`. -/
def replyToComment (userId parentId : Nat) (content : String) (db : DB) :
    ReplyResult × DB :=
  if jsTrim content == "" then (.emptyContent, db)
  else if content.length > 1000 then (.tooLong, db)
  else
    match db.review_comments.find?
        (fun c => c.id == parentId && decide (c.status = .approved)) with
    | none => (.parentNotFound, db)
    | some parent =>
      match db.reviews.find? (fun r => r.id == parent.review_id) with
      | none => (.parentNotFound, db)
      | some review =>
        if review.status ≠ .approved then (.reviewNotApproved, db)
        else
          let cid := db.nextCommentId
          let row : CommentRow := ⟨cid, parent.review_id, userId, some parentId,
            jsTrim content, defaultCommentStatus⟩
          let db1 := { db with review_comments := db.review_comments ++ [row],
                               nextCommentId := cid + 1 }
          (.created cid, commentInsertTrigger parent.review_id db1)

/-- Result of `POST /api/comments/reviews/:reviewId` (`part_002` lines
27-103): top-level comment creation. -/
inductive CommentResult
  /-- 400 — empty content. -/
  | emptyContent
  /-- 400 — content longer than 1000. -/
  | tooLong
  /-- 404 — review does not exist. -/
  | reviewNotFound
  /-- 403 — review is not approved. -/
  | reviewNotApproved
  /-- 201 — comment inserted with `parent_id` NULL. -/
  | created (id : Nat)
deriving DecidableEq, Repr

/-- `POST /api/comments/reviews/:reviewId` (`part_002` lines 27-103): the
INSERT (line 71) has no `parent_id` column, so a top-level comment always
stores `parent_id = NULL`. -/
def createComment (userId reviewId : Nat) (content : String) (db : DB) :
    CommentResult × DB :=
  if jsTrim content == "" then (.emptyContent, db)
  else if content.length > 1000 then (.tooLong, db)
  else
    match db.reviews.find? (fun r => r.id == reviewId) with
    | none => (.reviewNotFound, db)
    | some review =>
      if review.status ≠ .approved then (.reviewNotApproved, db)
      else
        let cid := db.nextCommentId
        let row : CommentRow := ⟨cid, reviewId, userId, none,
          jsTrim content, defaultCommentStatus⟩
        let db1 := { db with review_comments := db.review_comments ++ [row],
                             nextCommentId := cid + 1 }
        (.created cid, commentInsertTrigger reviewId db1)

/-- Result of `DELETE /api/comments/:id` (`part_002` lines 409-470). -/
inductive DeleteCommentResult
  /-- 404 — comment does not exist. -/
  | notFound
  /-- 403 — actor is neither the author nor an admin. -/
  | forbidden
  /-- 409 — the comment has replies; the payload carries `replies_count`. -/
  | hasReplies (replies_count : Nat)
  /-- 200 — comment deleted. -/
  | ok
deriving DecidableEq, Repr

/-- HTTP status of a delete-comment result. -/
def DeleteCommentResult.httpStatus : DeleteCommentResult → Nat
  | .notFound => 404
  | .forbidden => 403
  | .hasReplies _ => 409
  | .ok => 200

/-- `DELETE /api/comments/:id` (`part_002` lines 409-470): permission check
(author or admin), then the has-replies guard (lines 438-452:
`COUNT(*) WHERE parent_id = ?`, any status), then the DELETE. -/
def deleteComment (userId : Nat) (role : Role) (commentId : Nat) (db : DB) :
    DeleteCommentResult × DB :=
  match db.review_comments.find? (fun c => c.id == commentId) with
  | none => (.notFound, db)
  | some comment =>
    if comment.user_id ≠ userId ∧ role ≠ .admin then (.forbidden, db)
    else
      let repliesCount := (db.review_comments.filter
        (fun c => c.parent_id == some commentId)).length
      if repliesCount > 0 then (.hasReplies repliesCount, db)
      else
        let remaining := db.review_comments.filter (fun c => !(c.id == commentId))
        let db1 := { db with review_comments := remaining }
        (.ok, commentDeleteTrigger comment.review_id db1)

/-! ### Profile privacy resolver (`profile.js` `GET /:userId`, lines 265-462) -/

/-- JS property read `req.user.id` (`profile.js` lines 68, 271): the auth
middleware stores the id under `userId` and sets no `id` property, so in
this codebase the read yields `undefined` — modelled as `none`. -/
def AuthUser.jsIdProperty (_ : AuthUser) : Option Nat := none

/-- JS loose equality `a == b` where `a` may be `undefined`:
`undefined == v` is `false` for every number `v`. -/
def jsLooseEq : Option Nat → Nat → Bool
  | none, _ => false
  | some a, b => a == b

/-- `isOwnProfile` as computed at `profile.js` line 271:
`req.user && req.user.id == targetUserId`. -/
def isOwnProfile (actor : Option AuthUser) (targetUserId : Nat) : Bool :=
  match actor with
  | none => false
  | some u => jsLooseEq u.jsIdProperty targetUserId

/-- The all-`true` fallback privacy map (`profile.js` line 306). -/
def defaultPrivacy : Privacy := ⟨true, true, true, true⟩

/-- The stats block of the profile response (`profile.js` lines 320-365). -/
structure ProfileStats where
  reviews_count : Nat
  likes_received : Nat
  favorites_count : Nat
  favorites_received : Nat
  comments_count : Nat
deriving DecidableEq, Repr

/-- The history block of the profile response (`profile.js` lines 368-420):
the ids of the listed rows.  (The `ORDER BY created_at DESC` recency order
is not modelled — the claims concern only whether each block is present.) -/
structure ProfileHistory where
  reviews : List Nat
  favorites : List Nat
  comments : List Nat
deriving DecidableEq, Repr

/-- The profile response body (`profile.js` lines 423-436).  A `none` in an
optional field is the JSON `null` the handler sends for a gated field. -/
structure ProfileResponse where
  id : Nat
  username : String
  avatar_url : Option String
  bio : Option String
  signature : Option String
  privacy_settings : Option Privacy
  stats : Option ProfileStats
  history : Option ProfileHistory
  is_own_profile : Bool
deriving DecidableEq, Repr

/-- Result of `GET /api/profile/:userId`. -/
inductive ProfileResult
  /-- 404 — no active user with this id. -/
  | notFound
  /-- 200. -/
  | ok (p : ProfileResponse)
deriving DecidableEq, Repr

/-- `GET /api/profile/:userId` (`profile.js` lines 265-462), after
`optionalAuth`.  Gating: `signature` by `isOwnProfile || privacy.signature`
(line 429), `stats`/`history` by `canViewStats`/`canViewHistory` (lines
316-317, 433-434), `privacy_settings` by `isOwnProfile` (line 431);
`avatar_url` and `bio` are copied with no gate (lines 427-428). -/
def getProfile (actor : Option AuthUser) (targetUserId : Nat) (db : DB) :
    ProfileResult :=
  match db.users.find? (fun u => u.id == targetUserId && decide (u.status = .active)) with
  | none => .notFound
  | some user =>
    let privacySettings := user.privacy_settings.getD defaultPrivacy
    let isOwn := isOwnProfile actor targetUserId
    let canViewStats := isOwn || privacySettings.stats
    let canViewHistory := isOwn || privacySettings.history
    let stats : ProfileStats :=
      { reviews_count := user.total_reviews,
        likes_received := user.total_likes_received,
        favorites_count := (db.user_favorites.filter
          (fun f => f.user_id == targetUserId)).length,
        favorites_received := (db.user_favorites.filter (fun f =>
          ((db.reviews.find? (fun r => r.id == f.review_id)).map
            (fun r => r.user_id == targetUserId)).getD false)).length,
        comments_count := (db.review_comments.filter
          (fun c => c.user_id == targetUserId && decide (c.status = .approved))).length }
    let history : ProfileHistory :=
      { reviews := ((db.reviews.filter (fun r =>
          r.user_id == targetUserId && decide (r.status = .approved))).map (·.id)).take 10,
        favorites := ((db.user_favorites.filter (fun f =>
          f.user_id == targetUserId &&
          ((db.reviews.find? (fun r => r.id == f.review_id)).map
            (fun r => decide (r.status = .approved))).getD false)).map (·.review_id)).take 10,
        comments := ((db.review_comments.filter (fun c =>
          c.user_id == targetUserId && decide (c.status = .approved))).map (·.id)).take 10 }
    .ok {
      id := user.id,
      username := user.username,
      avatar_url := user.avatar_url,
      bio := user.bio,
      signature := if isOwn || privacySettings.signature then user.signature else none,
      privacy_settings := if isOwn then some privacySettings else none,
      stats := if canViewStats then some stats else none,
      history := if canViewHistory then some history else none,
      is_own_profile := isOwn }

/-- A small concrete database: two active users, one book, one approved
review by user 1 with all counters zero. -/
def sampleDB : DB :=
  { users := [⟨1, "a@x.com", "alice", .user, .active, none, none, none, none, 0, 0⟩,
              ⟨2, "b@x.com", "bob", .user, .active, none, none, none, none, 0, 0⟩],
    books := [⟨5, "Dune", "Herbert", 0⟩],
    reviews := [⟨10, 1, 5, "great", "text", 5, .approved, 0, 0, 0⟩],
    review_likes := [],
    user_favorites := [],
    review_comments := [],
    system_logs := [],
    nextReviewId := 11,
    nextCommentId := 1 }

/-- `sampleDB` after user 2 has liked review 10 (one like row, counter 1). -/
def sampleDBLiked : DB :=
  { sampleDB with
    reviews := [⟨10, 1, 5, "great", "text", 5, .approved, 0, 1, 0⟩],
    review_likes := [⟨2, 10⟩] }

/-- A database whose only user (id 3) is banned. -/
def bannedDB : DB :=
  { sampleDB with
    users := [⟨3, "c@x.com", "carol", .user, .banned, none, none, none, none, 0, 0⟩] }

/-- A database with an approved review 20, a top-level approved comment 1
on it, and an approved reply 2 to comment 1. -/
def commentsDB : DB :=
  { users := [⟨1, "a@x.com", "alice", .user, .active, none, none, none, none, 0, 0⟩,
              ⟨2, "b@x.com", "bob", .user, .active, none, none, none, none, 0, 0⟩,
              ⟨3, "c@x.com", "carol", .user, .active, none, none, none, none, 0, 0⟩],
    books := [⟨5, "Dune", "Herbert", 1⟩],
    reviews := [⟨20, 1, 5, "t", "c", 4, .approved, 0, 0, 2⟩],
    review_likes := [],
    user_favorites := [],
    review_comments := [⟨1, 20, 2, none, "top-level", .approved⟩,
                        ⟨2, 20, 3, some 1, "a reply", .approved⟩],
    system_logs := [],
    nextReviewId := 21,
    nextCommentId := 3 }

/-- A database with one active user (id 7) whose privacy map is
`{avatar: false, signature: true, stats: false, history: true}`. -/
def privacyDB : DB :=
  { users := [⟨7, "g@x.com", "grace", .user, .active, some "avatar7.png",
               some "bio", some "my sig", some ⟨false, true, false, true⟩, 4, 9⟩],
    books := [],
    reviews := [],
    review_likes := [],
    user_favorites := [],
    review_comments := [],
    system_logs := [],
    nextReviewId := 1,
    nextCommentId := 1 }

/-! ### Theorems -/

/-! ### Counting helper lemmas -/

/-- Appending one row changes a `countP` by 1 when the row satisfies the
predicate and 0 otherwise. -/
lemma countP_append_single {α : Type} (l : List α) (row : α) (p : α → Bool) :
    (l ++ [row]).countP p = l.countP p + (if p row then 1 else 0) := by
  by_cases h : p row <;> simp [List.countP_append, List.countP_cons, h]

/-- Removing the rows satisfying `q` subtracts the `q`-count from the
`p`-count, provided `q` implies `p`. -/
lemma countP_filter_not_sub {α : Type} (l : List α) (p q : α → Bool)
    (h : ∀ a, q a = true → p a = true) :
    (l.filter (fun a => !q a)).countP p = l.countP p - l.countP q := by
  induction l with
  | nil => simp
  | cons a t ih =>
    have hmono : t.countP q ≤ t.countP p :=
      List.countP_mono_left (fun a _ ha => h a ha)
    cases hq : q a with
    | true =>
      have hp : p a = true := h a hq
      simp [List.filter_cons, hq, List.countP_cons, hp, ih] <;> omega
    | false =>
      simp [List.filter_cons, hq, List.countP_cons, ih] <;>
        cases hp : p a <;> simp [hp] <;> omega

/-- Removing rows satisfying `q` leaves the `p`-count unchanged when `p` and
`q` are disjoint. -/
lemma countP_filter_not_disjoint {α : Type} (l : List α) (p q : α → Bool)
    (h : ∀ a, p a = true → q a = false) :
    (l.filter (fun a => !q a)).countP p = l.countP p := by
  induction l with
  | nil => simp
  | cons a t ih =>
    by_cases hp : p a
    · have hq : q a = false := h a hp
      simp [List.filter_cons, hq, List.countP_cons, hp, ih]
    · by_cases hq : q a <;>
        simp [List.filter_cons, hq, List.countP_cons, hp, ih]

/-! ### C1: the likes-count invariant is preserved -/

/-- One like operation preserves the counter invariant. -/
lemma likesConsistent_likeReview (u rid : Nat) (db : DB)
    (h : likesConsistent db = true) :
    likesConsistent (likeReview u rid db).2 = true := by
  unfold likeReview
  cases hf : db.reviews.find? (fun r => r.id == rid && decide (r.status = .approved)) with
  | none => simpa using h
  | some review =>
    simp only
    by_cases h1 : (db.review_likes.filter
        (fun l => l.user_id == u && l.review_id == rid)).length > 0
    · simpa [h1] using h
    · simp only [h1, if_false]
      by_cases h2 : review.user_id == u
      · simpa [h2] using h
      · simp only [h2, Bool.false_eq_true, if_false]
        unfold likesConsistent likeInsertTrigger at *
        simp only [List.all_eq_true] at h ⊢
        intro x hx
        simp only [List.mem_map] at hx
        obtain ⟨rv, hrv, rfl⟩ := hx
        have hcount := h rv hrv
        simp only [beq_iff_eq] at hcount
        by_cases hid : rv.id = rid
        · simp only [hid, beq_self_eq_true, if_true, beq_iff_eq]
          rw [countP_append_single]
          simp [hid, hcount]
        · have hid' : (rv.id == rid) = false := by simp [hid]
          simp only [hid', Bool.false_eq_true, if_false, beq_iff_eq]
          rw [countP_append_single]
          have hrr : (rid == rv.id) = false :=
            beq_eq_false_iff_ne.mpr (fun hh => hid hh.symm)
          simp [hrr, hcount]

/-- One unlike operation preserves the counter invariant. -/
lemma likesConsistent_unlikeReview (u rid : Nat) (db : DB)
    (h : likesConsistent db = true) :
    likesConsistent (unlikeReview u rid db).2 = true := by
  unfold unlikeReview
  by_cases h0 : (db.review_likes.filter
      (fun l => l.user_id == u && l.review_id == rid)).length == 0
  · simpa [h0] using h
  · simp only [h0, Bool.false_eq_true, if_false]
    unfold likesConsistent likeDeleteTrigger at *
    simp only [List.all_eq_true] at h ⊢
    intro x hx
    simp only [List.mem_map] at hx
    obtain ⟨rv, hrv, rfl⟩ := hx
    have hcount := h rv hrv
    simp only [beq_iff_eq] at hcount
    by_cases hid : rv.id = rid
    · simp only [hid, beq_self_eq_true, if_true, beq_iff_eq]
      rw [countP_filter_not_sub _ _ _
        (by intro a ha; simp only [Bool.and_eq_true] at ha; exact ha.2)]
      rw [← List.countP_eq_length_filter]
      simp only [hid] at hcount
      rw [hcount]
    · have hid' : (rv.id == rid) = false := by simp [hid]
      simp only [hid', Bool.false_eq_true, if_false, beq_iff_eq]
      rw [countP_filter_not_disjoint]
      · exact hcount
      · intro a ha
        simp only [beq_iff_eq] at ha
        have : (a.review_id == rid) = false :=
          beq_eq_false_iff_ne.mpr (by rw [ha]; exact hid)
        simp [this]

/-- **C1.** For every review `r`, after any completed sequence of like and
unlike operations, the denormalized counter `reviews.likes_count` of `r`
equals the number of rows in the `review_likes` table with
`review_id = r.id` (spec §4.2 invariant / §8 first testable property). -/
theorem C1_likes_count_invariant (ops : List LikeOp) (db : DB)
    (h : likesConsistent db = true) :
    likesConsistent (runLikeOps ops db) = true := by
  induction ops generalizing db with
  | nil => simpa [runLikeOps] using h
  | cons op rest ih =>
    cases op with
    | like u r =>
      exact ih _ (likesConsistent_likeReview u r db h)
    | unlike u r =>
      exact ih _ (likesConsistent_unlikeReview u r db h)

/-- Witness for C1: the invariant holds concretely after user 2 likes,
unlikes and re-likes review 10 starting from `sampleDB`. -/
theorem C1_likes_count_invariant_witness :
    likesConsistent sampleDB = true ∧
      likesConsistent (runLikeOps
        [.like 2 10, .unlike 2 10, .like 2 10] sampleDB) = true :=
  ⟨by decide, C1_likes_count_invariant [.like 2 10, .unlike 2 10, .like 2 10]
    sampleDB (by decide)⟩

/-- **C2.** For every authenticated user `u` and every approved review `r`
authored by `u`: the like operation by `u` on `r` fails with HTTP 400
`SELF_LIKE_FORBIDDEN` (the `'不能给自己的书评点赞'` branch, `likes.js` lines
54-60) and inserts no like row (the state is returned unchanged), while the
favorite operation by `u` on `r` succeeds with 201 and inserts the favorite
row — self-favoriting is permitted (`profile.js` favorites routes, line 888). -/
theorem C2_self_like_forbidden_self_favorite_allowed
    (u rid : Nat) (rv : Review) (db : DB)
    (hfind : db.reviews.find?
      (fun r => r.id == rid && decide (r.status = RStatus.approved)) = some rv)
    (hown : rv.user_id = u)
    (hnolike : db.review_likes.filter
      (fun l => l.user_id == u && l.review_id == rid) = [])
    (hnofav : db.user_favorites.filter
      (fun f => f.user_id == u && f.review_id == rid) = []) :
    likeReview u rid db = (.selfLikeForbidden, db) ∧
    LikeResult.selfLikeForbidden.httpStatus = 400 ∧
    (favoriteReview u rid db).1.httpStatus = 201 ∧
    (favoriteReview u rid db).2.user_favorites = db.user_favorites ++ [⟨u, rid⟩] := by
  refine ⟨?_, rfl, ?_, ?_⟩
  · unfold likeReview
    rw [hfind]
    simp [hnolike, hown]
  · unfold favoriteReview
    rw [hfind]
    simp [hnofav, FavResult.httpStatus]
  · unfold favoriteReview
    rw [hfind]
    simp [hnofav]

/-- Witness for C2 at `sampleDB`: user 1 owns approved review 10. -/
theorem C2_self_interaction_witness :
    likeReview 1 10 sampleDB = (.selfLikeForbidden, sampleDB) ∧
    LikeResult.selfLikeForbidden.httpStatus = 400 ∧
    (favoriteReview 1 10 sampleDB).1.httpStatus = 201 ∧
    (favoriteReview 1 10 sampleDB).2.user_favorites =
      sampleDB.user_favorites ++ [⟨1, 10⟩] :=
  C2_self_like_forbidden_self_favorite_allowed 1 10
    ⟨10, 1, 5, "great", "text", 5, .approved, 0, 0, 0⟩ sampleDB
    (by decide) (by decide) (by decide) (by decide)

/-- **C3** (code bug).  The batch route `POST /reviews/batch` is registered
*after* `POST /reviews/:reviewId` in `likes.js`, and an Express `:param`
segment matches the literal segment `batch`, so dispatch of
`POST /api/likes/reviews/batch` selects the like handler — which is guarded
by `authenticateToken`, so an anonymous caller receives 401 `NO_TOKEN`
instead of the documented per-id map.  The handler body itself (lines
350-419) does implement the claimed behavior: empty list → 400, more than
50 ids → 400, and an anonymous caller gets `is_liked = false` for every
returned id even when like rows exist. -/
theorem C3_batch_route_shadowed :
    dispatchLikes .post ["reviews", "batch"] = some .likeHandler ∧
    dispatchLikes .post ["reviews", "batch"] ≠ some .batchHandler ∧
    likesRouteRequiresAuth .likeHandler = true ∧
    authenticateToken none sampleDBLiked = .noToken ∧
    guardedEndpoint (fun s c => (s, c))
      (fun _ s => ((200, "HANDLER"), s)) none sampleDBLiked
      = ((401, "NO_TOKEN"), sampleDBLiked) ∧
    batchLikeStatus [] none sampleDBLiked = .invalidList ∧
    BatchResult.invalidList.httpStatus = 400 ∧
    batchLikeStatus (List.range 51) none sampleDBLiked = .tooMany ∧
    BatchResult.tooMany.httpStatus = 400 ∧
    batchLikeStatus [10, 11, 12] none sampleDBLiked
      = .ok [⟨10, "great", 1, false⟩] ∧
    batchLikeStatus [10, 11, 12] (some 2) sampleDBLiked
      = .ok [⟨10, "great", 1, true⟩] := by decide

/-- **C10.** A syntactically valid token whose user row is not `active`:
every endpoint guarded by `authenticateToken` (the handler is universally
quantified) responds 403 `ACCOUNT_DISABLED` with the state untouched
(`middleware/auth.js` lines 352-359), and `optionalAuth` downgrades the
caller to anonymous (`req.user = null`) because its SQL filters
`status = "active"` (lines 435-453). -/
theorem C10_disabled_account_rejected {ρ : Type} (errResp : Nat → String → ρ)
    (handler : AuthUser → DB → ρ × DB) (uid : Nat) (u : UserRow) (db : DB)
    (hfind : db.users.find? (fun x => x.id == uid) = some u)
    (hstatus : u.status ≠ .active)
    (hall : ∀ x ∈ db.users, x.id = uid → x.status ≠ UStatus.active) :
    guardedEndpoint errResp handler (some (some uid)) db
        = (errResp 403 "ACCOUNT_DISABLED", db) ∧
    optionalAuth (some (some uid)) db = none := by
  have hauth : authenticateToken (some (some uid)) db = .accountDisabled := by
    simp [authenticateToken, hfind, hstatus]
  constructor
  · unfold guardedEndpoint
    rw [hauth]
  · have hnone : db.users.find?
        (fun x => x.id == uid && decide (x.status = UStatus.active)) = none := by
      rw [List.find?_eq_none]
      intro x hx
      simp only [Bool.and_eq_true, beq_iff_eq, decide_eq_true_eq, not_and]
      exact fun hid hact => hall x hx hid hact
    simp [optionalAuth, hnone]

/-- Witness for C10 at `bannedDB`: user 3 is banned; the guarded endpoint
(given a handler that would erase the books table) performs no write. -/
theorem C10_disabled_account_witness :
    guardedEndpoint (fun s c => (s, c))
      (fun _ s => ((200, "OK"), { s with books := [] }))
      (some (some 3)) bannedDB = ((403, "ACCOUNT_DISABLED"), bannedDB) ∧
    optionalAuth (some (some 3)) bannedDB = none :=
  C10_disabled_account_rejected (fun s c => (s, c))
    (fun _ s => ((200, "OK"), { s with books := [] })) 3
    ⟨3, "c@x.com", "carol", .user, .banned, none, none, none, none, 0, 0⟩
    bannedDB (by decide) (by decide) (by decide)

/-- If a review by (user, book) exists in any moderation status, then
`createReview` with a well-formed body and an existing book returns 409 and
leaves the state unchanged. -/
lemma createReview_duplicate_of_mem (u bid rating : Nat) (t c : String) (db : DB)
    (hbid : bid ≠ 0) (ht : t ≠ "") (hc : c ≠ "")
    (hr1 : 1 ≤ rating) (hr5 : rating ≤ 5)
    (hbook : (db.books.find? (fun b => b.id == bid)).isSome)
    (hex : ∃ rv ∈ db.reviews, rv.user_id = u ∧ rv.book_id = bid) :
    createReview u bid t c rating db = (.duplicate, db) := by
  obtain ⟨rv, hrv, hru, hrb⟩ := hex
  obtain ⟨bk, hbk⟩ := Option.isSome_iff_exists.mp hbook
  have hmem : rv ∈ db.reviews.filter (fun r => r.user_id == u && r.book_id == bid) :=
    List.mem_filter.mpr ⟨hrv, by simp [hru, hrb]⟩
  have hlen : 0 < (db.reviews.filter
      (fun r => r.user_id == u && r.book_id == bid)).length :=
    List.length_pos_of_mem hmem
  have hb0 : (bid == 0) = false := beq_eq_false_iff_ne.mpr hbid
  have ht0 : (t == "") = false := beq_eq_false_iff_ne.mpr ht
  have hc0 : (c == "") = false := beq_eq_false_iff_ne.mpr hc
  have hr0 : (rating == 0) = false := beq_eq_false_iff_ne.mpr (by omega)
  have h0 : (bid == 0 || t == "" || c == "" || rating == 0) = false := by
    rw [hb0, ht0, hc0, hr0]
    rfl
  have h1 : ¬ (rating < 1 ∨ rating > 5) := by omega
  unfold createReview
  simp [h0, h1, hbk, hlen] <;> omega

/-- `deleteReview` never changes the books table. -/
lemma deleteReview_books (u' : Nat) (role : Role) (rid : Nat) (db : DB) :
    (deleteReview u' role rid db).2.books = db.books := by
  unfold deleteReview
  cases db.reviews.find? (fun r => r.id == rid) with
  | none => rfl
  | some review =>
    dsimp only
    split <;> rfl

/-- Soft deletion keeps every (user, book) pair present in the reviews
table: the row is updated in place (status set to hidden), never removed. -/
lemma deleteReview_preserves_userbook (u' : Nat) (role : Role) (rid : Nat)
    (db : DB) (rv : Review) (hrv : rv ∈ db.reviews) :
    ∃ rv' ∈ (deleteReview u' role rid db).2.reviews,
      rv'.user_id = rv.user_id ∧ rv'.book_id = rv.book_id := by
  unfold deleteReview
  cases db.reviews.find? (fun r => r.id == rid) with
  | none => exact ⟨rv, hrv, rfl, rfl⟩
  | some review =>
    dsimp only
    split
    · exact ⟨rv, hrv, rfl, rfl⟩
    · refine ⟨(fun r => if r.id == rid then { r with status := RStatus.hidden }
          else r) rv, List.mem_map_of_mem _ hrv, ?_, ?_⟩ <;>
        · by_cases h : (rv.id == rid) = true <;> simp [h]

/-- **C4.** A second review creation by the same user for the same book
fails with HTTP 409 and inserts no review row (`reviews.js` lines 55-66:
the duplicate check has no status filter), and — because `DELETE
/api/reviews/:id` is a soft transition to `hidden` (line 502) — the
(user, book) slot is not freed by deletion: creation still returns 409
against the post-delete state, whoever attempted the deletion. -/
theorem C4_duplicate_review_conflict (u bid rating : Nat) (t c : String)
    (db : DB) (rv : Review)
    (hbid : bid ≠ 0) (ht : t ≠ "") (hc : c ≠ "")
    (hr1 : 1 ≤ rating) (hr5 : rating ≤ 5)
    (hbook : (db.books.find? (fun b => b.id == bid)).isSome)
    (hrv : rv ∈ db.reviews) (hru : rv.user_id = u) (hrb : rv.book_id = bid) :
    createReview u bid t c rating db = (.duplicate, db) ∧
    CreateReviewResult.duplicate.httpStatus = 409 ∧
    ∀ u' role,
      createReview u bid t c rating (deleteReview u' role rv.id db).2
        = (.duplicate, (deleteReview u' role rv.id db).2) := by
  refine ⟨createReview_duplicate_of_mem u bid rating t c db hbid ht hc hr1 hr5 hbook
      ⟨rv, hrv, hru, hrb⟩, rfl, ?_⟩
  intro u' role
  apply createReview_duplicate_of_mem u bid rating t c _ hbid ht hc hr1 hr5
  · rw [deleteReview_books]
    exact hbook
  · obtain ⟨rv', hmem, h1, h2⟩ :=
      deleteReview_preserves_userbook u' role rv.id db rv hrv
    exact ⟨rv', hmem, by rw [h1, hru], by rw [h2, hrb]⟩

/-- Witness for C4 at `sampleDB`: user 1 already reviewed book 5 (review
10); re-creation conflicts both before and after the owner soft-deletes. -/
theorem C4_duplicate_review_witness :
    createReview 1 5 "x" "y" 3 sampleDB = (.duplicate, sampleDB) ∧
    createReview 1 5 "x" "y" 3 (deleteReview 1 .user 10 sampleDB).2
      = (.duplicate, (deleteReview 1 .user 10 sampleDB).2) :=
  ⟨(C4_duplicate_review_conflict 1 5 3 "x" "y" sampleDB
      ⟨10, 1, 5, "great", "text", 5, .approved, 0, 0, 0⟩
      (by decide) (by decide) (by decide) (by decide) (by decide) (by decide)
      (by decide) (by decide) (by decide)).1,
   (C4_duplicate_review_conflict 1 5 3 "x" "y" sampleDB
      ⟨10, 1, 5, "great", "text", 5, .approved, 0, 0, 0⟩
      (by decide) (by decide) (by decide) (by decide) (by decide) (by decide)
      (by decide) (by decide) (by decide)).2.2 1 .user⟩

/-- `find?` by id commutes with mapping an id-preserving function. -/
lemma find?_map_of_id_preserved (l : List Review) (rid : Nat) (f : Review → Review)
    (hf : ∀ r, (f r).id = r.id) :
    (l.map f).find? (fun r => r.id == rid) = (l.find? (fun r => r.id == rid)).map f := by
  induction l with
  | nil => rfl
  | cons a t ih =>
    simp only [List.map_cons, List.find?]
    rw [hf a]
    cases h : (a.id == rid) with
    | true => rfl
    | false => exact ih

/-- Incrementing `views` of every row with the given id bumps the looked-up
view count by exactly one, provided some row with that id exists. -/
lemma views_lookup_incr (l : List Review) (rid : Nat)
    (hex : ∃ r ∈ l, (r.id == rid) = true) :
    (((l.map (fun r => if r.id == rid then { r with views := r.views + 1 } else r)).find?
        (fun r => r.id == rid)).map (·.views)).getD 0
      = ((l.find? (fun r => r.id == rid)).map (·.views)).getD 0 + 1 := by
  rw [find?_map_of_id_preserved]
  · obtain ⟨r₀, hr₀mem, hr₀⟩ := hex
    have hsome : (l.find? (fun r => r.id == rid)).isSome :=
      List.find?_isSome.mpr ⟨r₀, hr₀mem, hr₀⟩
    obtain ⟨r₁, hr₁⟩ := Option.isSome_iff_exists.mp hsome
    have hp := List.find?_some hr₁
    rw [hr₁]
    simp [beq_iff_eq.mp hp]
  · intro r
    by_cases h : (r.id == rid) = true <;> simp [h]

/-- **C6.** For every `recordView` call on an existing approved review: if a
prior view event for the same actor-or-IP and review exists within the
trailing 30-minute window, the views counter is returned unchanged and no
event is logged (the state is untouched); otherwise `views` is incremented
by exactly 1 and exactly one event row is appended.  The dedup key is the
actor identity when one is resolved (`recentViewLogs` with `some uid`) and
the source IP otherwise (`reviews.js` lines 316-332). -/
theorem C6_view_dedup (rid : Nat) (uid : Option Nat) (ip ua : String) (now : Nat)
    (db : DB) (rv : Review)
    (hfind : db.reviews.find?
      (fun r => r.id == rid && decide (r.status = RStatus.approved)) = some rv) :
    (recentViewLogs rid uid ip (now - 30 * 60 * 1000) db ≠ [] →
      recordView rid uid ip ua now db = (.ok ⟨viewsOf rid db, false⟩, db)) ∧
    (recentViewLogs rid uid ip (now - 30 * 60 * 1000) db = [] →
      (recordView rid uid ip ua now db).2.system_logs
          = db.system_logs ++ [⟨uid, "view_review", rid, ip, ua, now⟩] ∧
      viewsOf rid (recordView rid uid ip ua now db).2 = viewsOf rid db + 1 ∧
      (recordView rid uid ip ua now db).1 = .ok ⟨viewsOf rid db + 1, true⟩) := by
  have hex : ∃ r ∈ db.reviews, (r.id == rid) = true := by
    refine ⟨rv, List.mem_of_find?_eq_some hfind, ?_⟩
    have hp := List.find?_some hfind
    simp only [Bool.and_eq_true] at hp
    exact hp.1
  constructor
  · intro hne
    have hlen : ((recentViewLogs rid uid ip (now - 30 * 60 * 1000) db).length == 0)
        = false :=
      beq_eq_false_iff_ne.mpr (fun hl => hne (List.length_eq_zero.mp hl))
    unfold recordView
    rw [hfind]
    simp only [hlen, Bool.false_eq_true, if_false]
  · intro heq
    have hlen : ((recentViewLogs rid uid ip (now - 30 * 60 * 1000) db).length == 0)
        = true := by
      rw [heq]
      rfl
    have hviews : viewsOf rid { db with
        reviews := db.reviews.map (fun r =>
          if r.id == rid then { r with views := r.views + 1 } else r) }
        = viewsOf rid db + 1 := by
      unfold viewsOf
      exact views_lookup_incr db.reviews rid hex
    unfold recordView
    rw [hfind]
    simp only [hlen, if_true]
    refine ⟨trivial, ?_, ?_⟩
    · exact hviews
    · exact congrArg (fun n => ViewResult.ok ⟨n, true⟩) hviews

/-- Witness for C6 at `sampleDB` (no prior log rows): a view by user 2
counts, bumps `views` from 0 to 1 and appends one log row. -/
theorem C6_view_dedup_witness :
    (recordView 10 (some 2) "ip9" "ua" 3000000 sampleDB).2.system_logs
        = sampleDB.system_logs ++ [⟨some 2, "view_review", 10, "ip9", "ua", 3000000⟩] ∧
    viewsOf 10 (recordView 10 (some 2) "ip9" "ua" 3000000 sampleDB).2
        = viewsOf 10 sampleDB + 1 ∧
    (recordView 10 (some 2) "ip9" "ua" 3000000 sampleDB).1
        = .ok ⟨viewsOf 10 sampleDB + 1, true⟩ :=
  (C6_view_dedup 10 (some 2) "ip9" "ua" 3000000 sampleDB
    ⟨10, 1, 5, "great", "text", 5, .approved, 0, 0, 0⟩ (by decide)).2 (by decide)

/-- **C5** (code bug).  At `privacyDB` (user 7 has privacy
`{avatar: false, signature: true, stats: false, history: true}`) the
authenticated owner and an anonymous stranger receive the *same* response:
`is_own_profile` is `false` even for the owner (the handler reads
`req.user.id`, but the auth middleware stores the id under `userId`, so the
check at `profile.js` line 271 never succeeds), hence the owner's stats
block is withheld (`stats = none` although the owner must see everything),
and `avatar_url` is served to the stranger although the avatar privacy flag
is `false` (the response at line 427 never consults it). -/
theorem C5_profile_privacy_divergence :
    getProfile (some ⟨7, "g@x.com", "grace", .user, some "avatar7.png"⟩) 7 privacyDB
      = .ok ⟨7, "grace", some "avatar7.png", some "bio", some "my sig",
             none, none, some ⟨[], [], []⟩, false⟩ ∧
    getProfile none 7 privacyDB
      = .ok ⟨7, "grace", some "avatar7.png", some "bio", some "my sig",
             none, none, some ⟨[], [], []⟩, false⟩ := by decide

/-- **C7** (counterexample).  In `commentsDB`, comment 2 is itself a reply
(`parent_id = some 1`), yet the reply operation on it succeeds and stores a
comment whose `parent_id` is 2 — a parent chain of length three — refuting
"the reply operation never attaches a reply to a comment that is itself a
reply". -/
theorem C7_reply_to_reply_counterexample :
    (commentsDB.review_comments.find? (fun c => c.id == 2)).map (·.parent_id)
      = some (some 1) ∧
    (replyToComment 1 2 "third level" commentsDB).1 = .created 3 ∧
    (replyToComment 1 2 "third level" commentsDB).2.review_comments
      = commentsDB.review_comments ++ [⟨3, 20, 1, some 2, "third level", .approved⟩] := by
  decide

/-- **C7** (amended).  Top-level comment creation always stores
`parent_id = NULL`, and the reply operation attaches the new comment to
*any* approved parent comment on an approved review — the parent's own
`parent_id` is never inspected (`part_002` lines 631-658), so the parent
may itself be a reply and chains of length three are possible.  The reply
inherits the parent's `review_id`. -/
theorem C7_reply_parent_unrestricted (u pid : Nat) (content : String)
    (db : DB) (parent : CommentRow) (review : Review)
    (h1 : (jsTrim content == "") = false) (h2 : content.length ≤ 1000)
    (hparent : db.review_comments.find?
      (fun c => c.id == pid && decide (c.status = CStatus.approved)) = some parent)
    (hreview : db.reviews.find? (fun r => r.id == parent.review_id) = some review)
    (happ : review.status = .approved) :
    (replyToComment u pid content db).1 = .created db.nextCommentId ∧
    (replyToComment u pid content db).2.review_comments
      = db.review_comments ++ [⟨db.nextCommentId, parent.review_id, u, some pid,
          jsTrim content, .approved⟩] := by
  have hlen : ¬ (content.length > 1000) := by omega
  constructor
  · unfold replyToComment
    simp [h1, hlen, hparent, hreview, happ, defaultCommentStatus]
  · unfold replyToComment
    simp [h1, hlen, hparent, hreview, happ, defaultCommentStatus, commentInsertTrigger]

/-- Witness for the amended C7 at `commentsDB`: replying to comment 2 —
itself a reply — succeeds and attaches `parent_id = 2`. -/
theorem C7_reply_parent_unrestricted_witness :
    (replyToComment 1 2 "third level" commentsDB).1
        = .created commentsDB.nextCommentId ∧
    (replyToComment 1 2 "third level" commentsDB).2.review_comments
        = commentsDB.review_comments ++
          [⟨commentsDB.nextCommentId, 20, 1, some 2, jsTrim "third level", .approved⟩] :=
  C7_reply_parent_unrestricted 1 2 "third level" commentsDB
    ⟨2, 20, 3, some 1, "a reply", .approved⟩
    ⟨20, 1, 5, "t", "c", 4, .approved, 0, 0, 2⟩
    (by decide) (by decide) (by decide) (by decide) (by decide)

/-- **C8.** For every review and every authenticated actor who is neither
its author nor an admin, `PUT /api/reviews/:id` responds 403 and leaves the
state (hence every field of the review) unchanged; any state change implies
the actor was the owner or an admin, and an owner/admin request is never
rejected with 403 (`reviews.js` lines 399-404). -/
theorem C8_update_review_authorization (u : Nat) (role : Role) (rid : Nat)
    (body : ReviewUpdate) (db : DB) (rv : Review)
    (hfind : db.reviews.find? (fun r => r.id == rid) = some rv) :
    (rv.user_id ≠ u ∧ role ≠ .admin →
      updateReview u role rid body db = (.forbidden, db)) ∧
    ((updateReview u role rid body db).2 ≠ db → (rv.user_id = u ∨ role = .admin)) ∧
    ((rv.user_id = u ∨ role = .admin) →
      (updateReview u role rid body db).1 ≠ .forbidden) ∧
    UpdateReviewResult.forbidden.httpStatus = 403 := by
  unfold updateReview
  rw [hfind]
  dsimp only
  refine ⟨?_, ?_, ?_, rfl⟩
  · intro h
    rw [if_pos h]
  · intro hne
    by_contra hcon
    push_neg at hcon
    rw [if_pos hcon] at hne
    exact hne rfl
  · intro h
    rw [if_neg (by tauto)]
    split
    · simp
    · split <;> simp

/-- Witness for C8 at `sampleDB`: user 2 (role `user`) is not the author of
review 10; the update is rejected and the state is unchanged. -/
theorem C8_update_review_witness :
    updateReview 2 .user 10 ⟨some "t2", none, none⟩ sampleDB
      = (.forbidden, sampleDB) :=
  (C8_update_review_authorization 2 .user 10 ⟨some "t2", none, none⟩ sampleDB
    ⟨10, 1, 5, "great", "text", 5, .approved, 0, 0, 0⟩ (by decide)).1 (by decide)

/-- **C9.** Deleting a comment that has at least one reply row, invoked by
the author or an admin, fails with HTTP 409 carrying `replies_count` and
leaves the state (hence the comment row) unchanged; with zero replies the
deletion succeeds and removes the row (`part_002` lines 438-455). -/
theorem C9_comment_delete_guard (u : Nat) (role : Role) (cid : Nat) (db : DB)
    (comment : CommentRow)
    (hfind : db.review_comments.find? (fun c => c.id == cid) = some comment)
    (hauth : comment.user_id = u ∨ role = .admin) :
    ((db.review_comments.filter (fun c => c.parent_id == some cid)).length > 0 →
      deleteComment u role cid db
        = (.hasReplies
            (db.review_comments.filter (fun c => c.parent_id == some cid)).length,
           db)) ∧
    ((db.review_comments.filter (fun c => c.parent_id == some cid)).length = 0 →
      (deleteComment u role cid db).1 = .ok ∧
      ∀ c' ∈ (deleteComment u role cid db).2.review_comments, c'.id ≠ cid) ∧
    DeleteCommentResult.httpStatus
      (.hasReplies
        (db.review_comments.filter (fun c => c.parent_id == some cid)).length)
      = 409 := by
  unfold deleteComment
  rw [hfind]
  dsimp only
  rw [if_neg (by tauto)]
  refine ⟨?_, ?_, rfl⟩
  · intro h
    rw [if_pos h]
  · intro h
    rw [if_neg (by omega)]
    refine ⟨rfl, ?_⟩
    intro c' hc'
    have hmem : c' ∈ db.review_comments.filter (fun c => !(c.id == cid)) := hc'
    have hfalse : (c'.id == cid) = false := by
      have := (List.mem_filter.mp hmem).2
      simpa using this
    exact beq_eq_false_iff_ne.mp hfalse

/-- Witness for C9 at `commentsDB`: comment 1 (owned by user 2) has one
reply; its deletion by user 2 is rejected with 409 and the state is
unchanged. -/
theorem C9_comment_delete_witness :
    deleteComment 2 .user 1 commentsDB
      = (.hasReplies
          (commentsDB.review_comments.filter
            (fun c => c.parent_id == some 1)).length,
         commentsDB) :=
  (C9_comment_delete_guard 2 .user 1 commentsDB
    ⟨1, 20, 2, none, "top-level", .approved⟩ (by decide) (by decide)).1 (by decide)

end BookReview
